import Mathlib

/-!
Shallow embedding of the hiffi_dwnld producer/consumer pipeline
(src/a_q_put_videos.py and src/q_get_videos.py) and proofs of the
spec claims about it.  Pure Python helpers become Lean functions over
String / List Char; the stateful worker callback becomes an explicit
state-passing function; the consuming loop becomes a fold over a list
of deliveries.
-/

/-- Python str.strip: drop whitespace from both ends. -/
def pyStrip (s : String) : String :=
  String.mk (((s.data.dropWhile Char.isWhitespace).reverse.dropWhile Char.isWhitespace).reverse)

/-- Python str.lower (ASCII-relevant part). -/
def pyLower (s : String) : String :=
  String.mk (s.data.map Char.toLower)

/-- Does the list start with the given pattern? (models Python str.startswith on char lists). -/
def listStartsWith : List Char → List Char → Bool
  | [], _ => true
  | _ :: _, [] => false
  | a :: as, b :: bs => a == b && listStartsWith as bs

/-- Does the pattern occur as a contiguous sublist? (models the Python `in` test on strings). -/
def listHasSub (pat : List Char) : List Char → Bool
  | [] => listStartsWith pat []
  | b :: bs => listStartsWith pat (b :: bs) || listHasSub pat bs

/-- Python `needle in hay` for strings. -/
def strContains (hay needle : String) : Bool :=
  listHasSub needle.data hay.data

/-- First occurrence split: returns (part before pat, part after pat), or none if
pat does not occur.  Models Python s.split(pat, 1) when it actually splits. -/
def breakOn (pat : List Char) : List Char → Option (List Char × List Char)
  | [] => if listStartsWith pat [] then some ([], []) else none
  | c :: cs =>
    if listStartsWith pat (c :: cs) then some ([], (c :: cs).drop pat.length)
    else
      match breakOn pat cs with
      | some (b, a) => some (c :: b, a)
      | none => none

/-- Python s.split(pat)[0]: the part before the first occurrence of pat, or all of s. -/
def takeBefore (pat : List Char) (l : List Char) : List Char :=
  match breakOn pat l with
  | some (b, _) => b
  | none => l

/-- src/q_get_videos.py video_id_from_url: extract the YouTube video id
from watch?v= or youtu.be/ URLs, else None. -/
def video_id_from_url (url : String) : Option String :=
  match breakOn "watch?v=".data url.data with
  | some (_, rest) => some (pyStrip (String.mk (takeBefore "&".data rest)))
  | none =>
    match breakOn "youtu.be/".data url.data with
    | some (_, rest) => some (pyStrip (String.mk (takeBefore "?".data rest)))
    | none => none

/-- A caught Python exception, as the classifier sees it:
whether isinstance(exc, (socket.timeout, TimeoutError)) holds, the effective
message (the value of getattr(exc, msg-attribute, None) or str(exc)), and the
optional chained underlying cause (exc.__cause__): base = no cause, wrap = has one. -/
inductive Exc where
  | base (timeoutInstance : Bool) (msg : String)
  | wrap (timeoutInstance : Bool) (msg : String) (cause : Exc)
deriving DecidableEq, Repr

/-- src/q_get_videos.py is_timeout_error: protocol-level timeout instance, or the
lowercased message contains timeout / timed out, or the chained cause is a timeout. -/
def is_timeout_error : Exc → Bool
  | .base inst msg =>
    if inst then true
    else
      let m := pyLower msg
      if strContains m "timeout" || strContains m "timed out" then true
      else false
  | .wrap inst msg cause =>
    if inst then true
    else
      let m := pyLower msg
      if strContains m "timeout" || strContains m "timed out" then true
      else is_timeout_error cause

/-- src/q_get_videos.py is_rate_limit_error: lowercased message contains 429 /
rate limit / too many requests, recursing through the chained cause. -/
def is_rate_limit_error : Exc → Bool
  | .base _ msg =>
    let m := pyLower msg
    if strContains m "429" || strContains m "rate limit" || strContains m "too many requests" then true
    else false
  | .wrap _ msg cause =>
    let m := pyLower msg
    if strContains m "429" || strContains m "rate limit" || strContains m "too many requests" then true
    else is_rate_limit_error cause

/-- The classification verdict of the spec. -/
inductive Verdict where
  | Timeout
  | RateLimited
  | Other
deriving DecidableEq, Repr

/-- The classification dispatch exactly as the except-block of on_message applies it:
timeout check first, then rate-limit check, else Other. -/
def classify (e : Exc) : Verdict :=
  if is_timeout_error e then .Timeout
  else if is_rate_limit_error e then .RateLimited
  else .Other

/-- A metadata record as built by download_and_collect_metadata and stored in
downloaded_videos.json: id, channel, duration (may be null), title, description. -/
structure MetaRecord where
  id : String
  channel : String
  duration : Option Nat
  title : String
  description : String
deriving DecidableEq, Repr

/-- The observable states of the METADATA_JSON file: absent, bytes that are not
valid UTF-8 (on which f.read() with encoding utf-8 raises UnicodeDecodeError),
text that strips to the empty string, text that fails JSON parsing, or a parsed
document (an array of records, the format the store writes). -/
inductive StoreFile where
  | missing
  | badBytes
  | blank
  | malformed
  | doc (records : List MetaRecord)
deriving DecidableEq, Repr

/-- The exception load_metadata can let escape: the UnicodeDecodeError raised by
f.read() on invalid UTF-8 bytes.  It is a ValueError, so the except clause of
load_metadata, which catches only (json.JSONDecodeError, OSError), does not
swallow it. -/
inductive PyError where
  | unicodeDecodeError
deriving DecidableEq, Repr

/-- The escaped UnicodeDecodeError as the except-block of on_message then sees
it: not a timeout instance, no chained cause, and a str() of the form: utf-8
codec cannot decode byte 0xff in position 0: invalid start byte.  That message
contains none of the timeout / 429 / rate limit / too many requests signatures
the classifier inspects. -/
def excOfPyError : PyError → Exc
  | .unicodeDecodeError =>
    .base false "utf-8 codec cannot decode byte 0xff in position 0: invalid start byte"

/-- src/q_get_videos.py load_metadata: empty list when the file is missing, when
the stripped text is empty, or when parsing raises (JSONDecodeError and OSError
are caught); the parsed records on a well-formed document; but on invalid UTF-8
bytes the UnicodeDecodeError from f.read() escapes the except clause, so the
call raises instead of returning a sequence. -/
def load_metadata : StoreFile → Except PyError (List MetaRecord)
  | .missing => .ok []
  | .badBytes => .error .unicodeDecodeError
  | .blank => .ok []
  | .malformed => .ok []
  | .doc records => .ok records

/-- src/q_get_videos.py save_metadata: overwrite the whole document with the records. -/
def save_metadata (records : List MetaRecord) : StoreFile :=
  .doc records

/-- src/q_get_videos.py DELAY_BETWEEN_DOWNLOADS_SEC. -/
def DELAY_BETWEEN_DOWNLOADS_SEC : Nat := 5

/-- How one delivery was resolved: basic_ack, or basic_nack with requeue=True. -/
inductive AckAction where
  | acked
  | nackedRequeue
deriving DecidableEq, Repr

/-- Per-delivery observables of one on_message call: how the delivery was
resolved, how long time.sleep was invoked for afterwards (0 = no sleep), and
whether stop_consuming was called. -/
structure MsgResult where
  action : AckAction
  sleptFor : Nat
  stoppedConsuming : Bool
deriving DecidableEq, Repr

/-- The mutable state surrounding on_message: the metadata file, the error log
(modelled as the list of video ids of the lines appended by log_error), the two
occurred flags read after the loop, and whether stop_consuming was called. -/
structure WorkerState where
  file : StoreFile
  errorLog : List String
  timeout_occurred : Bool
  rate_limit_occurred : Bool
  stopped : Bool
deriving DecidableEq, Repr

/-- Worker state at the start of run_consumer with an empty store (no metadata
file yet): both occurred flags false, no error-log lines, not stopped. -/
def initState : WorkerState :=
  { file := .missing
    errorLog := []
    timeout_occurred := false
    rate_limit_occurred := false
    stopped := false }

/-- The result of invoking download_and_collect_metadata: it returns a record,
returns None (extract_info produced nothing), or raises an exception. -/
abbrev FetchResult := Except Exc (Option MetaRecord)

/-- src/q_get_videos.py on_message, as a pure state transformer.  The body is the
delivery payload (decoded UTF-8); the fetch result stands for what
download_and_collect_metadata(url) did.  Empty stripped payload: ack, no sleep.
The try block is the attempt below: the fetch, then — when a record came back —
the load-append-save, whose UnicodeDecodeError (if the file holds invalid UTF-8
bytes) propagates to the same except dispatch as a fetch failure.  A completed
attempt is acked and followed by the sleep.  On an exception: timeout verdict
sets the flag, nacks with requeue and stops (no log line); rate-limit verdict
logs one line, sets the flag, nacks with requeue and stops; any other exception
logs one line, acks and sleeps. -/
def on_message (body : String) (fetch : FetchResult) (st : WorkerState) :
    MsgResult × WorkerState :=
  let url := pyStrip body
  let video_id := (video_id_from_url url).getD "unknown"
  if url = "" then
    ({ action := .acked, sleptFor := 0, stoppedConsuming := false }, st)
  else
    let attempt : Except Exc StoreFile :=
      match fetch with
      | .error e => .error e
      | .ok none => .ok st.file
      | .ok (some m) =>
        match load_metadata st.file with
        | .error err => .error (excOfPyError err)
        | .ok records => .ok (save_metadata (records ++ [m]))
    match attempt with
    | .ok newFile =>
      ({ action := .acked, sleptFor := DELAY_BETWEEN_DOWNLOADS_SEC,
         stoppedConsuming := false }, { st with file := newFile })
    | .error e =>
      if is_timeout_error e then
        ({ action := .nackedRequeue, sleptFor := 0, stoppedConsuming := true },
         { st with timeout_occurred := true, stopped := true })
      else if is_rate_limit_error e then
        ({ action := .nackedRequeue, sleptFor := 0, stoppedConsuming := true },
         { st with rate_limit_occurred := true, stopped := true,
                   errorLog := st.errorLog ++ [video_id] })
      else
        ({ action := .acked, sleptFor := DELAY_BETWEEN_DOWNLOADS_SEC,
           stoppedConsuming := false },
         { st with errorLog := st.errorLog ++ [video_id] })

/-- One queued delivery: the payload together with what the fetch would do for it. -/
abbrev Delivery := String × FetchResult

/-- channel.start_consuming with prefetch 1: deliveries are handed to on_message
one at a time, in order, until stop_consuming has been called. -/
def consume_loop : List Delivery → WorkerState → WorkerState
  | [], st => st
  | (body, f) :: rest, st =>
    if st.stopped then st
    else consume_loop rest (on_message body f st).2

/-- src/q_get_videos.py run_consumer tail and the sys.exit(0) after it: exit 1
when timeout_occurred, else exit 1 when rate_limit_occurred, else exit 0. -/
def exit_code (st : WorkerState) : Nat :=
  if st.timeout_occurred then 1
  else if st.rate_limit_occurred then 1
  else 0

/-- One entry of the videos_1.json list as the producer iterates it: a Python
string, or a value of any other type. -/
inductive PyEntry where
  | str (s : String)
  | nonStr
deriving DecidableEq, Repr

/-- The body of the publish loop in src/a_q_put_videos.py main: skip an entry
that is falsy or not a string, otherwise publish it and bump the count. -/
def producer_step (acc : List String × Nat) (e : PyEntry) : List String × Nat :=
  match e with
  | .str s => if s = "" then acc else (acc.1 ++ [s], acc.2 + 1)
  | .nonStr => acc

/-- src/a_q_put_videos.py main: with an empty links list it prints a notice and
returns early (none); otherwise it runs the publish loop and reports the list of
published bodies and the published count. -/
def producer_main (links : List PyEntry) : Option (List String × Nat) :=
  if links = [] then none
  else some (links.foldl producer_step ([], 0))

/-- Spec-side notion for the refinement claim C6: an entry is well-formed when it
is a non-empty string. -/
def specWellFormed : PyEntry → Bool
  | .str s => s != ""
  | .nonStr => false

/-- Spec-side notion for C6: the entries the producer should publish, in order. -/
def specPublished (links : List PyEntry) : List String :=
  links.filterMap fun e =>
    match e with
    | .str s => if s = "" then none else some s
    | .nonStr => none

/-- The deliveries of a run in which every fetch succeeds and returns a record:
one delivery per (payload, record) pair, in order. -/
def successDeliveries (items : List (String × MetaRecord)) : List Delivery :=
  items.map fun p => (p.1, Except.ok (some p.2))

/-- An exception whose message merely mentions 429 inside an identifier: no
timeout signature and no genuine rate-limit condition. -/
def exc429url : Exc :=
  .base false "Unable to rename file seg429a.part"

/-- Sample record for concrete runs. -/
def rec1 : MetaRecord :=
  { id := "AAA", channel := "chan", duration := some 10, title := "title a",
    description := "d" }

/-- Second sample record for concrete runs. -/
def rec2 : MetaRecord :=
  { id := "BBB", channel := "chan", duration := none, title := "title b",
    description := "" }

/-- A concrete two-success run used to instantiate the store append theorem. -/
def samplePairs : List (String × MetaRecord) :=
  [("https://x/watch?v=AAA", rec1), ("https://x/watch?v=BBB", rec2)]

/-- A concrete videos list with an empty string and a non-string entry. -/
def sampleLinks : List PyEntry :=
  [.str "https://x/watch?v=AAA", .str "", .nonStr, .str "https://x/watch?v=BBB"]

/-! Helper lemmas shared by the claim theorems. -/

/-- A Timeout verdict is exactly a positive timeout check. -/
lemma classify_eq_timeout_iff (e : Exc) :
    classify e = .Timeout ↔ is_timeout_error e = true := by
  unfold classify
  by_cases h1 : is_timeout_error e = true
  · simp [h1]
  · by_cases h2 : is_rate_limit_error e = true <;> simp [h1, h2]

/-- A RateLimited verdict is exactly: timeout check negative, rate-limit check positive. -/
lemma classify_eq_rate_iff (e : Exc) :
    classify e = .RateLimited ↔
      is_timeout_error e = false ∧ is_rate_limit_error e = true := by
  unfold classify
  by_cases h1 : is_timeout_error e = true
  · simp [h1]
  · by_cases h2 : is_rate_limit_error e = true <;> simp [h1, h2]

/-- An Other verdict is exactly: both checks negative. -/
lemma classify_eq_other_iff (e : Exc) :
    classify e = .Other ↔
      is_timeout_error e = false ∧ is_rate_limit_error e = false := by
  unfold classify
  by_cases h1 : is_timeout_error e = true
  · simp [h1]
  · by_cases h2 : is_rate_limit_error e = true <;> simp [h1, h2]

/-- Once stop_consuming has been called, the loop pulls no further delivery. -/
lemma consume_loop_stopped (ds : List Delivery) (st : WorkerState)
    (h : st.stopped = true) : consume_loop ds st = st := by
  cases ds with
  | nil => rfl
  | cons d rest =>
    obtain ⟨body, f⟩ := d
    simp [consume_loop, h]

/-- The escaped UnicodeDecodeError carries no timeout signature. -/
lemma unicode_exc_not_timeout :
    is_timeout_error (excOfPyError .unicodeDecodeError) = false := by
  decide

/-- The escaped UnicodeDecodeError carries no rate-limit signature. -/
lemma unicode_exc_not_rate_limit :
    is_rate_limit_error (excOfPyError .unicodeDecodeError) = false := by
  decide

/-- C1: the classifier maps the spec examples to their verdicts — Read timed out
is Timeout, HTTP Error 429: Too Many Requests is RateLimited, Video unavailable is
Other, a wrapper whose underlying cause is timeout-signatured is Timeout — and the
checks apply in order: a message carrying both a 429 and a timed-out signature is
classified Timeout because the timeout check runs first. -/
theorem C1_classifier_examples :
    classify (.base false "Read timed out") = .Timeout ∧
    classify (.base false "HTTP Error 429: Too Many Requests") = .RateLimited ∧
    classify (.base false "Video unavailable") = .Other ∧
    classify (.wrap false "ERROR: unable to download webpage"
      (.base false "Read timed out")) = .Timeout ∧
    classify (.base false "HTTP Error 429: request timed out") = .Timeout := by
  decide

/-- C2: on a non-empty payload whose fetch raises, a Timeout verdict nacks the
delivery with requeue=true (never acks), stops pulling new deliveries and writes
no Error Log line; a RateLimited verdict nacks with requeue=true (never acks),
stops pulling new deliveries and writes exactly one Error Log line. -/
theorem C2_systemic_halt (body : String) (e : Exc) (st : WorkerState)
    (hurl : pyStrip body ≠ "") :
    (classify e = .Timeout →
      (on_message body (.error e) st).1.action = .nackedRequeue ∧
      (on_message body (.error e) st).1.action ≠ .acked ∧
      (on_message body (.error e) st).1.stoppedConsuming = true ∧
      ((on_message body (.error e) st).2).stopped = true ∧
      (∀ rest, consume_loop rest ((on_message body (.error e) st).2)
        = (on_message body (.error e) st).2) ∧
      ((on_message body (.error e) st).2).errorLog = st.errorLog) ∧
    (classify e = .RateLimited →
      (on_message body (.error e) st).1.action = .nackedRequeue ∧
      (on_message body (.error e) st).1.action ≠ .acked ∧
      (on_message body (.error e) st).1.stoppedConsuming = true ∧
      ((on_message body (.error e) st).2).stopped = true ∧
      (∀ rest, consume_loop rest ((on_message body (.error e) st).2)
        = (on_message body (.error e) st).2) ∧
      ((on_message body (.error e) st).2).errorLog
        = st.errorLog ++ [(video_id_from_url (pyStrip body)).getD "unknown"]) := by
  constructor
  · intro hcl
    have ht : is_timeout_error e = true := (classify_eq_timeout_iff e).mp hcl
    have hres : on_message body (.error e) st
        = ({ action := .nackedRequeue, sleptFor := 0, stoppedConsuming := true },
           { st with timeout_occurred := true, stopped := true }) := by
      simp [on_message, hurl, ht]
    rw [hres]
    refine ⟨rfl, by simp, rfl, rfl, fun rest => consume_loop_stopped rest _ rfl, rfl⟩
  · intro hcl
    obtain ⟨ht, hrl⟩ := (classify_eq_rate_iff e).mp hcl
    have hres : on_message body (.error e) st
        = ({ action := .nackedRequeue, sleptFor := 0, stoppedConsuming := true },
           { st with rate_limit_occurred := true, stopped := true,
                     errorLog := st.errorLog
                       ++ [(video_id_from_url (pyStrip body)).getD "unknown"] }) := by
      simp [on_message, hurl, ht, hrl]
    rw [hres]
    exact ⟨rfl, by simp, rfl, rfl, fun rest => consume_loop_stopped rest _ rfl, rfl⟩

/-- C2 witness: a concrete timeout failure and a concrete rate-limit failure on a
concrete payload exhibit the nack / stop / log behaviour. -/
theorem C2_systemic_halt_witness :
    pyStrip "https://x/watch?v=BBB" ≠ "" ∧
    classify (Exc.base false "Read timed out") = .Timeout ∧
    classify (Exc.base false "HTTP Error 429: Too Many Requests") = .RateLimited ∧
    (on_message "https://x/watch?v=BBB"
      (.error (.base false "Read timed out")) initState).1.action = .nackedRequeue ∧
    ((on_message "https://x/watch?v=BBB"
      (.error (.base false "Read timed out")) initState).2).errorLog
        = initState.errorLog ∧
    ((on_message "https://x/watch?v=BBB"
      (.error (.base false "HTTP Error 429: Too Many Requests")) initState).2).errorLog
        = initState.errorLog
          ++ [(video_id_from_url (pyStrip "https://x/watch?v=BBB")).getD "unknown"] := by
  refine ⟨by decide, by decide, by decide, ?_, ?_, ?_⟩
  · exact ((C2_systemic_halt _ _ initState (by decide)).1 (by decide)).1
  · exact ((C2_systemic_halt _ _ initState (by decide)).1 (by decide)).2.2.2.2.2
  · exact ((C2_systemic_halt _ _ initState (by decide)).2 (by decide)).2.2.2.2.2

/-- C3: a delivery is acked only when the payload strips to empty (no-op), the
fetch returned successfully (a record, or nothing — the explicit no-op of the
success path), or the raised failure classifies as Other. -/
theorem C3_ack_only_when_safe (body : String) (f : FetchResult) (st : WorkerState)
    (h : (on_message body f st).1.action = .acked) :
    pyStrip body = "" ∨ (∃ m, f = .ok (some m)) ∨ f = .ok none ∨
      (∃ e, f = .error e ∧ classify e = .Other) := by
  by_cases hurl : pyStrip body = ""
  · exact Or.inl hurl
  · cases f with
    | ok m =>
      cases m with
      | some mm => exact Or.inr (Or.inl ⟨mm, rfl⟩)
      | none => exact Or.inr (Or.inr (Or.inl rfl))
    | error e =>
      by_cases ht : is_timeout_error e = true
      · exfalso
        simp [on_message, hurl, ht] at h
      · by_cases hrl : is_rate_limit_error e = true
        · exfalso
          simp [on_message, hurl, ht, hrl] at h
        · refine Or.inr (Or.inr (Or.inr ⟨e, rfl, ?_⟩))
          rw [classify_eq_other_iff]
          simp at ht hrl
          exact ⟨ht, hrl⟩

/-- C3 witness: an empty-after-strip payload is acked, and the disjunction holds
for it through the first disjunct. -/
theorem C3_ack_only_when_safe_witness :
    (on_message "  " (Except.ok none) initState).1.action = .acked ∧
    (pyStrip "  " = "" ∨ (∃ m, (Except.ok none : FetchResult) = .ok (some m)) ∨
      (Except.ok none : FetchResult) = .ok none ∨
      (∃ e, (Except.ok none : FetchResult) = .error e ∧ classify e = .Other)) :=
  ⟨by decide, C3_ack_only_when_safe "  " (.ok none) initState (by decide)⟩

/-- C5: evaluation of load_metadata at the corruption states.  The three caught
cases — missing file, contents stripping to empty, contents failing JSON
parsing — return the empty sequence without raising, as the claim says.  But on
the remaining invalid-content state, a file whose bytes are not valid UTF-8,
f.read() raises UnicodeDecodeError, a ValueError that the except clause
(catching only JSONDecodeError and OSError) lets propagate: load_metadata
raises there, although the spec says corruption is swallowed by design.  The
last conjunct evaluates the code at that failing input. -/
theorem C5_corrupt_store_tolerance :
    load_metadata .missing = .ok [] ∧
    load_metadata .blank = .ok [] ∧
    load_metadata .malformed = .ok [] ∧
    load_metadata .badBytes = .error .unicodeDecodeError :=
  ⟨rfl, rfl, rfl, rfl⟩

/-- C9: whenever the fetch raises — regardless of how the failure is classified —
the metadata file after on_message is exactly the file before it: the
load-append-save sequence runs only on the success path. -/
theorem C9_failure_leaves_store_unchanged (body : String) (e : Exc)
    (st : WorkerState) :
    ((on_message body (.error e) st).2).file = st.file := by
  by_cases hurl : pyStrip body = ""
  · simp [on_message, hurl]
  · by_cases ht : is_timeout_error e = true
    · simp [on_message, hurl, ht]
    · by_cases hrl : is_rate_limit_error e = true <;>
        simp [on_message, hurl, ht, hrl]

/-- C7: after the consuming loop, the process exit status is non-zero (namely 1,
via sys.exit(1)) when the recorded halt reason is Timeout or RateLimited, and
zero (the final sys.exit(0)) when neither flag was set, i.e. the loop ended for
any other reason. -/
theorem C7_exit_status (ds : List Delivery) :
    (((consume_loop ds initState).timeout_occurred = true ∨
        (consume_loop ds initState).rate_limit_occurred = true) →
      exit_code (consume_loop ds initState) = 1) ∧
    ((consume_loop ds initState).timeout_occurred = false ∧
        (consume_loop ds initState).rate_limit_occurred = false →
      exit_code (consume_loop ds initState) = 0) := by
  constructor
  · rintro (h | h) <;> simp [exit_code, h]
  · rintro ⟨h1, h2⟩
    simp [exit_code, h1, h2]

/-- C7 witness: a run halted by a timeout failure exits 1; the empty run exits 0. -/
theorem C7_exit_status_witness :
    (consume_loop [("https://x/watch?v=AAA",
      Except.error (Exc.base false "Read timed out"))] initState).timeout_occurred
        = true ∧
    exit_code (consume_loop [("https://x/watch?v=AAA",
      Except.error (Exc.base false "Read timed out"))] initState) = 1 ∧
    exit_code (consume_loop [] initState) = 0 := by
  refine ⟨by decide, ?_, ?_⟩
  · exact (C7_exit_status _).1 (Or.inl (by decide))
  · exact (C7_exit_status []).2 ⟨by decide, by decide⟩

/-- C8: the fixed inter-item delay is 5 time-units, it is slept after every
successful outcome and after every Other (recoverable-skip) outcome, and it is
never slept after a Timeout or RateLimited halt. -/
theorem C8_throttle_delay (body : String) (e : Exc) (st : WorkerState)
    (hurl : pyStrip body ≠ "") :
    DELAY_BETWEEN_DOWNLOADS_SEC = 5 ∧
    (∀ m : Option MetaRecord,
      (on_message body (.ok m) st).1.sleptFor = DELAY_BETWEEN_DOWNLOADS_SEC) ∧
    (classify e = .Other →
      (on_message body (.error e) st).1.sleptFor = DELAY_BETWEEN_DOWNLOADS_SEC) ∧
    ((classify e = .Timeout ∨ classify e = .RateLimited) →
      (on_message body (.error e) st).1.sleptFor = 0) := by
  refine ⟨rfl, ?_, ?_, ?_⟩
  · intro m
    cases m with
    | none => simp [on_message, hurl]
    | some mm =>
      cases hl : load_metadata st.file with
      | ok records => simp [on_message, hurl, hl]
      | error err =>
        cases err
        simp [on_message, hurl, hl, unicode_exc_not_timeout,
          unicode_exc_not_rate_limit]
  · intro hcl
    obtain ⟨ht, hrl⟩ := (classify_eq_other_iff e).mp hcl
    simp [on_message, hurl, ht, hrl]
  · rintro (hcl | hcl)
    · have ht : is_timeout_error e = true := (classify_eq_timeout_iff e).mp hcl
      simp [on_message, hurl, ht]
    · obtain ⟨ht, hrl⟩ := (classify_eq_rate_iff e).mp hcl
      simp [on_message, hurl, ht, hrl]

/-- C8 witness: concrete success, Other-failure and Timeout-failure deliveries
show delay 5, delay 5, and no delay respectively. -/
theorem C8_throttle_delay_witness :
    pyStrip "https://x/watch?v=AAA" ≠ "" ∧
    (on_message "https://x/watch?v=AAA" (.ok (some rec1)) initState).1.sleptFor
      = DELAY_BETWEEN_DOWNLOADS_SEC ∧
    (on_message "https://x/watch?v=AAA"
      (.error (.base false "Video unavailable")) initState).1.sleptFor
      = DELAY_BETWEEN_DOWNLOADS_SEC ∧
    (on_message "https://x/watch?v=AAA"
      (.error (.base false "Read timed out")) initState).1.sleptFor = 0 := by
  refine ⟨by decide, ?_, ?_, ?_⟩
  · exact (C8_throttle_delay "https://x/watch?v=AAA"
      (.base false "Video unavailable") initState (by decide)).2.1 (some rec1)
  · exact (C8_throttle_delay "https://x/watch?v=AAA"
      (.base false "Video unavailable") initState (by decide)).2.2.1 (by decide)
  · exact (C8_throttle_delay "https://x/watch?v=AAA"
      (.base false "Read timed out") initState (by decide)).2.2.2
      (Or.inl (by decide))

/-- C10: a failure whose message merely contains 429 inside a file name — with no
timeout signature and no genuine rate-limit condition — is classified RateLimited,
and on it the worker nacks with requeue and halts. -/
theorem C10_429_substring_false_positive :
    is_timeout_error exc429url = false ∧
    is_rate_limit_error exc429url = true ∧
    classify exc429url = .RateLimited ∧
    (on_message "https://x/watch?v=AAA" (.error exc429url) initState).1.action
      = .nackedRequeue ∧
    (on_message "https://x/watch?v=AAA" (.error exc429url) initState).1.stoppedConsuming
      = true ∧
    ((on_message "https://x/watch?v=AAA" (.error exc429url) initState).2).stopped
      = true ∧
    ((on_message "https://x/watch?v=AAA" (.error exc429url) initState).2).rate_limit_occurred
      = true := by
  decide

/-- A run of consecutive successful fetches with non-empty payloads, starting
from a store whose document loads as rs, never stops the loop and extends the
stored document by the fetched records, in order. -/
lemma consume_loop_success_run (items : List (String × MetaRecord))
    (st : WorkerState) (rs : List MetaRecord) (hstop : st.stopped = false)
    (hfile : load_metadata st.file = .ok rs)
    (hbody : ∀ p ∈ items, pyStrip p.1 ≠ "") :
    load_metadata ((consume_loop (successDeliveries items) st).file)
      = .ok (rs ++ items.map Prod.snd) ∧
    (consume_loop (successDeliveries items) st).stopped = false := by
  induction items generalizing st rs with
  | nil => simp [successDeliveries, consume_loop, hstop, hfile]
  | cons p rest ih =>
    obtain ⟨body, m⟩ := p
    have hb : pyStrip body ≠ "" := hbody (body, m) (by simp)
    have hmem : ∀ q ∈ rest, pyStrip q.1 ≠ "" := fun q hq => hbody q (by simp [hq])
    have hstep : (on_message body (.ok (some m)) st).2
        = { st with file := save_metadata (rs ++ [m]) } := by
      simp [on_message, hb, hfile]
    have hloop : consume_loop (successDeliveries ((body, m) :: rest)) st
        = consume_loop (successDeliveries rest)
            { st with file := save_metadata (rs ++ [m]) } := by
      simp [successDeliveries, consume_loop, hstop, hstep]
    rw [hloop]
    obtain ⟨ih1, ih2⟩ := ih
      { st with file := save_metadata (rs ++ [m]) } (rs ++ [m]) hstop rfl hmem
    refine ⟨?_, ih2⟩
    rw [ih1]
    simp

/-- C4: starting from an empty store, a run of N consecutive successful fetches
(non-empty payloads, distinct ids) leaves the store with exactly the N fetched
records: load() returns them — without raising — with matching ids, in arrival
order. -/
theorem C4_store_append (items : List (String × MetaRecord))
    (hbody : ∀ p ∈ items, pyStrip p.1 ≠ "")
    (_hdistinct : (items.map fun p => p.2.id).Nodup) :
    ∃ L, load_metadata ((consume_loop (successDeliveries items) initState).file)
        = .ok L ∧
      L = items.map Prod.snd ∧
      L.length = items.length ∧
      L.map (fun r => r.id) = items.map fun p => p.2.id := by
  have h := consume_loop_success_run items initState [] rfl rfl hbody
  refine ⟨items.map Prod.snd, ?_, rfl, by simp, ?_⟩
  · rw [h.1]
    simp
  · simp [List.map_map, Function.comp]

/-- C4 witness: a concrete two-item success run with distinct ids stores exactly
those two records in order. -/
theorem C4_store_append_witness :
    (∀ p ∈ samplePairs, pyStrip p.1 ≠ "") ∧
    (samplePairs.map fun p => p.2.id).Nodup ∧
    load_metadata ((consume_loop (successDeliveries samplePairs) initState).file)
      = .ok (samplePairs.map Prod.snd) := by
  refine ⟨by decide, by decide, ?_⟩
  obtain ⟨L, h1, h2, h3, h4⟩ := C4_store_append samplePairs (by decide) (by decide)
  rw [h2] at h1
  exact h1

/-- The publish loop, from any accumulator: it appends exactly the non-empty
string entries and adds their number to the count. -/
lemma producer_foldl (links : List PyEntry) (acc : List String) (n : Nat) :
    links.foldl producer_step (acc, n)
      = (acc ++ specPublished links, n + links.countP specWellFormed) := by
  induction links generalizing acc n with
  | nil => simp [specPublished]
  | cons e rest ih =>
    cases e with
    | str s =>
      by_cases hs : s = ""
      · simp [List.foldl_cons, producer_step, hs, ih, specPublished,
          List.filterMap_cons, specWellFormed, List.countP_cons]
      · rw [List.foldl_cons,
          show producer_step (acc, n) (.str s) = (acc ++ [s], n + 1) by
            simp [producer_step, hs],
          ih]
        simp [specPublished, List.filterMap_cons, hs, specWellFormed,
          List.countP_cons, List.append_assoc]
        omega
    | nonStr =>
      simp [List.foldl_cons, producer_step, ih, specPublished,
        List.filterMap_cons, specWellFormed, List.countP_cons]

/-- C6 counterexample: on the empty input list the producer returns early (after
printing a notice) without running the publish loop, so no published count is
produced at all — the claim fails for this input. -/
theorem C6_empty_list_counterexample : producer_main [] = none := rfl

/-- C6 amended: for every non-empty input list, the producer publishes exactly
the non-empty string entries, in order, and the published count it reports
equals the number of such entries; empty and non-string entries are silently
skipped. -/
theorem C6_producer_count (links : List PyEntry) (h : links ≠ []) :
    producer_main links
      = some (specPublished links, links.countP specWellFormed) := by
  unfold producer_main
  rw [if_neg h, producer_foldl]
  simp

/-- C6 witness: a concrete list with an empty string and a non-string entry
publishes its two well-formed entries and reports count 2. -/
theorem C6_producer_count_witness :
    sampleLinks ≠ [] ∧
    producer_main sampleLinks
      = some (specPublished sampleLinks, sampleLinks.countP specWellFormed) ∧
    sampleLinks.countP specWellFormed = 2 :=
  ⟨by decide, C6_producer_count sampleLinks (by decide), by decide⟩
